import Mathlib

/-!
Verification development for the sequential-thinking-extended server.

The TypeScript source is shallowly embedded in Lean:
* `Date` values become `Nat` timestamps passed in explicitly as `now`.
* `randomUUID().slice(0, 12)` becomes an explicit `genId : String` argument.
* The file system backing `FileStorage` becomes an association list from a
  session id (the directory name under `sessions/`) to a `SessionDir` record
  holding one slot per JSON file; each slot is `absent`, `corrupt`
  (present but unparseable) or `good v`.  `readJson` returns `none` on the
  first two, matching the `try/readFile/JSON.parse/catch` in the source.
* Asynchronous methods become pure state-passing functions; a method that can
  throw becomes a function into `Except String`.
* JavaScript truthiness on optional strings (`if (sessionId)`,
  `params.taskId || ...`) is modelled explicitly: the empty string is falsy.
-/

namespace SeqThink

/-! ## Data model (src/context-layer/types.ts) -/

/-- A persisted thought record (interface `ThoughtRecord`). -/
structure ThoughtRecord where
  sessionId : String
  thought : String
  thoughtNumber : Nat
  totalThoughts : Nat
  branchId : Option String
  isRevision : Option Bool
  revisesThought : Option Nat
  timestamp : Nat
deriving Repr, DecidableEq

/-- Task status (`pending | in_progress | completed`). -/
inductive TaskStatus where
  | pending
  | in_progress
  | completed
deriving Repr, DecidableEq

/-- String rendering of a task status, as JS template interpolation prints it. -/
def TaskStatus.render : TaskStatus → String
  | .pending => "pending"
  | .in_progress => "in_progress"
  | .completed => "completed"

/-- A task record (interface `TaskCommit`). -/
structure TaskCommit where
  sessionId : String
  taskId : String
  taskTitle : String
  description : Option String
  completedAtThought : Nat
  status : TaskStatus
  createdAt : Nat
  completedAt : Option Nat
deriving Repr, DecidableEq

/-- Session status (`active | completed`). -/
inductive SessionStatus where
  | active
  | completed
deriving Repr, DecidableEq

/-- String rendering of a session status. -/
def SessionStatus.render : SessionStatus → String
  | .active => "active"
  | .completed => "completed"

/-- A session record (interface `Session`).  The free-form
`metadata?: Record<string, unknown>` is modelled as an optional list of
key/value pairs; no operation inspects it. -/
structure Session where
  id : String
  createdAt : Nat
  updatedAt : Nat
  status : SessionStatus
  thoughtCount : Nat
  taskCount : Nat
  metadata : Option (List (String × String))
deriving Repr, DecidableEq

/-- Aggregate returned by `getContext` (interface `SessionContext`). -/
structure SessionContext where
  session : Session
  thoughts : List ThoughtRecord
  tasks : List TaskCommit
deriving Repr, DecidableEq

/-- A generated documentation artifact (interface `DocumentationEntry`). -/
structure DocumentationEntry where
  sessionId : String
  generatedAt : Nat
  summary : String
  thoughtCount : Nat
  taskCount : Nat
  branches : List String
  content : String
deriving Repr, DecidableEq

/-! ## JavaScript truthiness helpers -/

/-- JS truthiness of an optional string: `undefined` and `""` are falsy. -/
def truthyStr : Option String → Bool
  | some s => s ≠ ""
  | none => false

/-- JS truthiness of an optional boolean: only `true` is truthy. -/
def truthyBool : Option Bool → Bool
  | some b => b
  | none => false

/-- JS `v || dflt` on an optional string: the default is taken when the
value is `undefined` or the empty string. -/
def jsOr (v : Option String) (dflt : String) : String :=
  match v with
  | some s => if s = "" then dflt else s
  | none => dflt

/-- Insertion into a JS `Set` rendered as a list: keeps first-occurrence
order, ignores duplicates. -/
def insertDistinct (acc : List String) (x : String) : List String :=
  if x ∈ acc then acc else acc ++ [x]

/-- `[...new Set(xs)]`: distinct elements in order of first appearance. -/
def jsSetOfList (xs : List String) : List String :=
  xs.foldl insertDistinct []

/-! ## File-system model -/

/-- State of one JSON file slot. -/
inductive FileState (α : Type) where
  | absent
  | corrupt
  | good (v : α)
deriving Repr, DecidableEq

/-- `readJson`: `fs.readFile` + `JSON.parse` with `catch { return null }`.
A missing or unparseable file reads as `none`. -/
def readJson {α : Type} : FileState α → Option α
  | .good v => some v
  | .absent => none
  | .corrupt => none

/-- One session directory under `sessions/<id>/`: the four JSON documents the
file storage keeps per session. -/
structure SessionDir where
  sessionFile : FileState Session
  thoughtsFile : FileState (List ThoughtRecord)
  tasksFile : FileState (List TaskCommit)
  documentationFile : FileState DocumentationEntry
deriving Repr, DecidableEq

/-- A directory that does not exist yet: every file is absent. -/
def SessionDir.empty : SessionDir :=
  { sessionFile := .absent, thoughtsFile := .absent,
    tasksFile := .absent, documentationFile := .absent }

/-- Lookup in an association list of session directories. -/
def lookupDir : List (String × SessionDir) → String → Option SessionDir
  | [], _ => none
  | (k, v) :: rest, sid => if k = sid then some v else lookupDir rest sid

/-- Update-or-append in an association list of session directories
(`mkdir -p` + write: an existing directory is updated in place, a new one is
appended). -/
def updateDir : List (String × SessionDir) → String → SessionDir →
    List (String × SessionDir)
  | [], sid, d => [(sid, d)]
  | (k, v) :: rest, sid, d =>
    if k = sid then (sid, d) :: rest else (k, v) :: updateDir rest sid d

/-- The whole data directory of a `FileStorage` instance, plus a flag
recording whether enumerating `sessions/` (`fs.readdir`) fails. -/
structure FileStorage where
  dirs : List (String × SessionDir)
  readdirFails : Bool
deriving Repr, DecidableEq

/-- The directory for a session id; a directory that was never created reads
as all-absent. -/
def FileStorage.dirOf (fs : FileStorage) (sid : String) : SessionDir :=
  (lookupDir fs.dirs sid).getD SessionDir.empty

/-- Write back the directory for a session id. -/
def FileStorage.setDir (fs : FileStorage) (sid : String) (d : SessionDir) :
    FileStorage :=
  { fs with dirs := updateDir fs.dirs sid d }

/-! ## FileStorage operations (src/context-layer/storage/file-storage.ts) -/

/-- `createSession`: writes `session.json`, an empty `thoughts.json` and an
empty `tasks.json` into the session's directory. -/
def FileStorage.createSession (fs : FileStorage) (s : Session) : FileStorage :=
  fs.setDir s.id
    { fs.dirOf s.id with
      sessionFile := .good s, thoughtsFile := .good [], tasksFile := .good [] }

/-- `getSession`: reads `session.json`; `null` when missing or unparseable. -/
def FileStorage.getSession (fs : FileStorage) (sid : String) : Option Session :=
  readJson (fs.dirOf sid).sessionFile

/-- `updateSession`: rewrites `session.json` in the directory named by the
session's own `id` field. -/
def FileStorage.updateSession (fs : FileStorage) (s : Session) : FileStorage :=
  fs.setDir s.id { fs.dirOf s.id with sessionFile := .good s }

/-- `listSessions`: enumerates the `sessions/` directory and collects every
readable `session.json`; any enumeration failure degrades to `[]`. -/
def FileStorage.listSessions (fs : FileStorage) : List Session :=
  if fs.readdirFails then []
  else (fs.dirs.map (fun p => p.1)).filterMap (fun n => fs.getSession n)

/-- `deleteSession`: removes the session's directory. -/
def FileStorage.deleteSession (fs : FileStorage) (sid : String) : FileStorage :=
  { fs with dirs := fs.dirs.filter (fun p => p.1 ≠ sid) }

/-- `saveThought`: whole-document read-modify-write of `thoughts.json`; an
unreadable current document is treated as `[]` (`|| []`). -/
def FileStorage.saveThought (fs : FileStorage) (t : ThoughtRecord) :
    FileStorage :=
  let d := fs.dirOf t.sessionId
  let ts := (readJson d.thoughtsFile).getD []
  fs.setDir t.sessionId { d with thoughtsFile := .good (ts ++ [t]) }

/-- `getThoughts`: reads `thoughts.json`, degrading to `[]`. -/
def FileStorage.getThoughts (fs : FileStorage) (sid : String) :
    List ThoughtRecord :=
  (readJson (fs.dirOf sid).thoughtsFile).getD []

/-- `saveTask`: whole-document read-modify-write of `tasks.json`. -/
def FileStorage.saveTask (fs : FileStorage) (t : TaskCommit) : FileStorage :=
  let d := fs.dirOf t.sessionId
  let ts := (readJson d.tasksFile).getD []
  fs.setDir t.sessionId { d with tasksFile := .good (ts ++ [t]) }

/-- `getTasks`: reads `tasks.json`, degrading to `[]`. -/
def FileStorage.getTasks (fs : FileStorage) (sid : String) : List TaskCommit :=
  (readJson (fs.dirOf sid).tasksFile).getD []

/-- `getTask`: linear search by `taskId` over `getTasks`. -/
def FileStorage.getTask (fs : FileStorage) (sid taskId : String) :
    Option TaskCommit :=
  (fs.getTasks sid).find? (fun t => t.taskId = taskId)

/-- `updateTask`: replace the entry with the matching `taskId`, writing the
document back only when the task was found. -/
def FileStorage.updateTask (fs : FileStorage) (task : TaskCommit) :
    FileStorage :=
  let d := fs.dirOf task.sessionId
  let tasks := (readJson d.tasksFile).getD []
  match tasks.findIdx? (fun t => t.taskId = task.taskId) with
  | some i => fs.setDir task.sessionId { d with tasksFile := .good (tasks.set i task) }
  | none => fs

/-- `saveDocumentation`: rewrites `documentation.json`. -/
def FileStorage.saveDocumentation (fs : FileStorage) (doc : DocumentationEntry) :
    FileStorage :=
  fs.setDir doc.sessionId
    { fs.dirOf doc.sessionId with documentationFile := .good doc }

/-- `getDocumentation`: reads `documentation.json`; `null` when missing or
unparseable. -/
def FileStorage.getDocumentation (fs : FileStorage) (sid : String) :
    Option DocumentationEntry :=
  readJson (fs.dirOf sid).documentationFile

/-! ## ContextStore (src/context-layer/context-store.ts) -/

namespace ContextStore

/-- `createSession`: allocates `session_<uuid>`, writes a fresh active session
with both counters zero, returns the new id. -/
def createSession (fs : FileStorage) (genId : String) (now : Nat)
    (metadata : Option (List (String × String))) : String × FileStorage :=
  let sid := "session_" ++ genId
  let s : Session :=
    { id := sid, createdAt := now, updatedAt := now, status := .active,
      thoughtCount := 0, taskCount := 0, metadata := metadata }
  (sid, fs.createSession s)

/-- `saveThought`: appends the thought, then — only when the session record is
readable — increments `thoughtCount` and bumps `updatedAt`. -/
def saveThought (fs : FileStorage) (t : ThoughtRecord) (now : Nat) :
    FileStorage :=
  let fs1 := fs.saveThought t
  match fs1.getSession t.sessionId with
  | some s =>
      fs1.updateSession
        { s with thoughtCount := s.thoughtCount + 1, updatedAt := now }
  | none => fs1

/-- `getContext`: aggregate lookup; throws `Session not found` when the
session record is unreadable. -/
def getContext (fs : FileStorage) (sid : String) :
    Except String SessionContext :=
  match fs.getSession sid with
  | none => .error ("Session not found: " ++ sid)
  | some s =>
      .ok { session := s, thoughts := fs.getThoughts sid,
            tasks := fs.getTasks sid }

/-- Summary projection of one session, as `listSessions` maps it. -/
structure SessionSummary where
  id : String
  createdAt : Nat
  thoughtCount : Nat
  taskCount : Nat
  status : String
deriving Repr, DecidableEq

/-- `listSessions`: maps the storage enumeration to summary projections. -/
def listSessions (fs : FileStorage) : List SessionSummary :=
  fs.listSessions.map (fun s =>
    { id := s.id, createdAt := s.createdAt, thoughtCount := s.thoughtCount,
      taskCount := s.taskCount, status := s.status.render })

/-- `completeSession`: when the session record is readable, sets
`status = completed` and bumps `updatedAt`; otherwise does nothing. -/
def completeSession (fs : FileStorage) (sid : String) (now : Nat) :
    FileStorage :=
  match fs.getSession sid with
  | some s =>
      fs.updateSession { s with status := .completed, updatedAt := now }
  | none => fs

/-- `sessionExists`: whether `getSession` yields a record. -/
def sessionExists (fs : FileStorage) (sid : String) : Bool :=
  (fs.getSession sid).isSome

end ContextStore

/-! ## TaskManager (src/context-layer/task-manager.ts) -/

namespace TaskManager

/-- Parameters of `commitTask`. -/
structure CommitParams where
  sessionId : String
  taskId : Option String
  taskTitle : Option String
  description : Option String
  completedAtThought : Nat
deriving Repr, DecidableEq

/-- `commitTask`: builds a completed task (generating `task_<uuid>` when no
truthy id is given, defaulting the title), saves it, and — only when the
session record is readable — increments `taskCount` and bumps `updatedAt`.
Returns the task. -/
def commitTask (fs : FileStorage) (p : CommitParams) (genId : String)
    (now : Nat) : TaskCommit × FileStorage :=
  let taskId := jsOr p.taskId ("task_" ++ genId)
  let task : TaskCommit :=
    { sessionId := p.sessionId, taskId := taskId,
      taskTitle := jsOr p.taskTitle "Untitled Task",
      description := p.description,
      completedAtThought := p.completedAtThought,
      status := .completed, createdAt := now, completedAt := some now }
  let fs1 := fs.saveTask task
  let fs2 :=
    match fs1.getSession p.sessionId with
    | some s =>
        fs1.updateSession
          { s with taskCount := s.taskCount + 1, updatedAt := now }
    | none => fs1
  (task, fs2)

/-- `createTask`: builds a pending task with a generated id and saves it; no
session record is touched. -/
def createTask (fs : FileStorage) (sessionId taskTitle : String)
    (description : Option String) (genId : String) (now : Nat) :
    TaskCommit × FileStorage :=
  let task : TaskCommit :=
    { sessionId := sessionId, taskId := "task_" ++ genId,
      taskTitle := taskTitle, description := description,
      completedAtThought := 0, status := .pending, createdAt := now,
      completedAt := none }
  (task, fs.saveTask task)

/-- `updateTaskStatus`: mutates a found task's status in place (stamping
completion data when completing); no-op when the task is not found. -/
def updateTaskStatus (fs : FileStorage) (sessionId taskId : String)
    (status : TaskStatus) (completedAtThought : Option Nat) (now : Nat) :
    FileStorage :=
  match fs.getTask sessionId taskId with
  | none => fs
  | some task =>
      let t1 := { task with status := status }
      let t2 :=
        if status = .completed then
          { t1 with
            completedAt := some now,
            completedAtThought :=
              completedAtThought.getD t1.completedAtThought }
        else t1
      fs.updateTask t2

/-- `shouldCommitTask`: true exactly when the optional task context carries
`commitTask: true`. -/
def shouldCommitTask (commitFlag : Option Bool) : Bool :=
  truthyBool commitFlag

end TaskManager

/-! ## DocumentationGenerator (src/context-layer/documentation.ts) -/

namespace DocumentationGenerator

/-- `generateSummary`: the one-line summary string, naming the counts of
thoughts, revisions (truthy `isRevision`) and completed tasks. -/
def generateSummary (thoughts : List ThoughtRecord)
    (tasks : List TaskCommit) : String :=
  let completedTasks := tasks.filter (fun t => t.status = .completed)
  let revisions := (thoughts.filter (fun t => truthyBool t.isRevision)).length
  "Session completed with " ++ toString thoughts.length ++ " thoughts, " ++
    toString revisions ++ " revisions, and " ++
    toString completedTasks.length ++ " tasks completed."

/-- One `### ...` block of the Tasks section. -/
def taskBlock (task : TaskCommit) : String :=
  let emoji :=
    if task.status = .completed then "✅"
    else if task.status = .in_progress then "🔄"
    else "⏳"
  "### " ++ emoji ++ " " ++ task.taskTitle ++ "\n\n" ++
    (match task.description with
     | some d => d ++ "\n\n"
     | none => "") ++
    "- Status: " ++ task.status.render ++ "\n" ++
    "- Completed at thought: " ++ toString task.completedAtThought ++ "\n\n"

/-- One `### ...` block of the Thought Progression section. -/
def thoughtBlock (t : ThoughtRecord) : String :=
  let pre :=
    if truthyBool t.isRevision then "🔄 [Revision]"
    else if truthyStr t.branchId then
      "🌿 [Branch: " ++ (t.branchId.getD "") ++ "]"
    else "💭"
  "### " ++ pre ++ " Thought " ++ toString t.thoughtNumber ++ "/" ++
    toString t.totalThoughts ++ "\n\n" ++ t.thought ++ "\n\n"

/-- `generateContent`: the rendered long-form markdown body. -/
def generateContent (thoughts : List ThoughtRecord) (tasks : List TaskCommit)
    (branches : List String) : String :=
  "# Thinking Session Documentation\n\n" ++
    "## Summary\n\n" ++
    "- Total thoughts: " ++ toString thoughts.length ++ "\n" ++
    "- Total tasks: " ++ toString tasks.length ++ "\n" ++
    "- Branches explored: " ++ toString branches.length ++ "\n\n" ++
    (if tasks.length > 0 then
      "## Tasks\n\n" ++ String.join (tasks.map taskBlock)
    else "") ++
    "## Thought Progression\n\n" ++ String.join (thoughts.map thoughtBlock)

/-- `[...new Set(thoughts.filter(t => t.branchId).map(t => t.branchId!))]`:
the distinct truthy branch tags, in order of first appearance. -/
def distinctBranches (thoughts : List ThoughtRecord) : List String :=
  jsSetOfList
    ((thoughts.filter (fun t => truthyStr t.branchId)).map
      (fun t => t.branchId.getD ""))

/-- `generate`: reads the session (throwing `Session not found` when it is
unreadable), derives the artifact from the stored thoughts and tasks, saves
it, then marks the session completed. -/
def generate (fs : FileStorage) (sid : String) (now : Nat) :
    Except String (DocumentationEntry × FileStorage) :=
  match fs.getSession sid with
  | none => .error ("Session not found: " ++ sid)
  | some session =>
      let thoughts := fs.getThoughts sid
      let tasks := fs.getTasks sid
      let branches := distinctBranches thoughts
      let doc : DocumentationEntry :=
        { sessionId := sid, generatedAt := now,
          summary := generateSummary thoughts tasks,
          thoughtCount := thoughts.length, taskCount := tasks.length,
          branches := branches,
          content := generateContent thoughts tasks branches }
      let fs1 := fs.saveDocumentation doc
      let fs2 :=
        fs1.updateSession
          { session with status := .completed, updatedAt := now }
      .ok (doc, fs2)

end DocumentationGenerator

/-! ## ContextLayer facade (src/context-layer/index.ts) -/

namespace ContextLayer

/-- `ensureSession`: a truthy supplied id that names an existing session is
returned with the state untouched; otherwise a fresh session is created
(`createSession()` with no metadata). -/
def ensureSession (fs : FileStorage) (sessionId : Option String)
    (genId : String) (now : Nat) : String × FileStorage :=
  match sessionId with
  | some sid =>
      if sid ≠ "" ∧ (fs.getSession sid).isSome then (sid, fs)
      else ContextStore.createSession fs genId now none
  | none => ContextStore.createSession fs genId now none

end ContextLayer

/-! ## Thought State Machine (src/sequential-thinking) -/

/-- Input of one thought submission (interface `ThoughtData`,
src/sequential-thinking/types.ts). -/
structure ThoughtData where
  thought : String
  thoughtNumber : Nat
  totalThoughts : Nat
  isRevision : Option Bool
  revisesThought : Option Nat
  branchFromThought : Option Nat
  branchId : Option String
  needsMoreThoughts : Option Bool
  nextThoughtNeeded : Bool
deriving Repr, DecidableEq

/-- Response payload of one submission (interface `ThoughtOutput`,
src/sequential-thinking/types.ts). -/
structure ThoughtOutput where
  thoughtNumber : Nat
  totalThoughts : Nat
  nextThoughtNeeded : Bool
  branches : List String
  thoughtHistoryLength : Nat
deriving Repr, DecidableEq

/-- In-memory state of one engine instance: the append-only thought history,
the branch index (tag ↦ bucket, in order of first sighting), and the engine's
current `totalThoughts` estimate. -/
structure EngineState where
  thoughtHistory : List ThoughtData
  branches : List (String × List ThoughtData)
  currentTotal : Nat
deriving Repr, DecidableEq

/-- A fresh engine instance. -/
def EngineState.initial : EngineState :=
  { thoughtHistory := [], branches := [], currentTotal := 0 }

/-- Append a thought to a branch tag's bucket, creating the bucket at the end
of the index on first sighting of the tag. -/
def addToBucket : List (String × List ThoughtData) → String → ThoughtData →
    List (String × List ThoughtData)
  | [], b, t => [(b, [t])]
  | (k, v) :: rest, b, t =>
    if k = b then (k, v ++ [t]) :: rest else (k, v) :: addToBucket rest b t

/-- Validation of a submission: the thought text must be non-empty and both
numbers must be at least 1.  Returns the validation-error message, if any. -/
def validateThought (input : ThoughtData) : Option String :=
  if input.thought = "" then some "Invalid thought: must be a string"
  else if input.thoughtNumber < 1 then
    some "Invalid thoughtNumber: must be a number"
  else if input.totalThoughts < 1 then
    some "Invalid totalThoughts: must be a number"
  else none

/-- Modelled from the spec: the engine's `totalThoughts` estimate after one
accepted submission.  The current estimate is first brought up to the
submission's own `totalThoughts` field (the estimate may grow but the engine
never shrinks it, §3); then, if `thoughtNumber` exceeds the current estimate,
the estimate is silently widened to `thoughtNumber` (§4.1). -/
def widenedTotal (st : EngineState) (input : ThoughtData) : Nat :=
  let base := max st.currentTotal input.totalThoughts
  if base < input.thoughtNumber then input.thoughtNumber else base

/-- Modelled from the spec: the Thought State Machine implementation
(`SequentialThinkingServer.processThought`, src/sequential-thinking/lib.ts)
is not in the source tree; only its types (src/sequential-thinking/types.ts)
and its unit tests are.  Per spec §4.1: a submission is validated (failure
leaves the state unmodified); on success the `totalThoughts` estimate evolves
as in `widenedTotal`; the (adjusted) thought is appended to history and to
its branch tag's bucket when a truthy tag is present; the response echoes
`thoughtNumber` and `nextThoughtNeeded` and carries the possibly-widened
`totalThoughts`, the distinct branch tags in order of first appearance, and
the new history length (§4.1, scenarios A and B of §8). -/
def processThought (st : EngineState) (input : ThoughtData) :
    Except String (ThoughtOutput × EngineState) :=
  match validateThought input with
  | some e => .error e
  | none =>
      let widened := widenedTotal st input
      let adjusted := { input with totalThoughts := widened }
      let newHistory := st.thoughtHistory ++ [adjusted]
      let newBranches :=
        match input.branchId with
        | some b => if b = "" then st.branches else addToBucket st.branches b adjusted
        | none => st.branches
      .ok
        ({ thoughtNumber := input.thoughtNumber, totalThoughts := widened,
           nextThoughtNeeded := input.nextThoughtNeeded,
           branches := newBranches.map (fun p => p.1),
           thoughtHistoryLength := newHistory.length },
         { thoughtHistory := newHistory, branches := newBranches,
           currentTotal := widened })

/-! ## Framing lemmas for the file-system model -/

theorem lookupDir_updateDir_self (l : List (String × SessionDir))
    (sid : String) (d : SessionDir) :
    lookupDir (updateDir l sid d) sid = some d := by
  induction l with
  | nil => simp [updateDir, lookupDir]
  | cons p rest ih =>
      obtain ⟨k, v⟩ := p
      by_cases h : k = sid
      · simp [updateDir, lookupDir, h]
      · simp [updateDir, lookupDir, h, ih]

theorem lookupDir_updateDir_ne (l : List (String × SessionDir))
    (sid sid' : String) (d : SessionDir) (h : sid' ≠ sid) :
    lookupDir (updateDir l sid d) sid' = lookupDir l sid' := by
  induction l with
  | nil => simp [updateDir, lookupDir, Ne.symm h]
  | cons p rest ih =>
      obtain ⟨k, v⟩ := p
      by_cases hk : k = sid
      · subst hk
        simp [updateDir, lookupDir, Ne.symm h]
      · by_cases hk' : k = sid'
        · subst hk'
          simp [updateDir, lookupDir, hk]
        · simp [updateDir, lookupDir, hk, hk', ih]

theorem dirOf_setDir_self (fs : FileStorage) (sid : String) (d : SessionDir) :
    (fs.setDir sid d).dirOf sid = d := by
  simp [FileStorage.setDir, FileStorage.dirOf, lookupDir_updateDir_self]

theorem dirOf_setDir_ne (fs : FileStorage) (sid sid' : String)
    (d : SessionDir) (h : sid' ≠ sid) :
    (fs.setDir sid d).dirOf sid' = fs.dirOf sid' := by
  simp [FileStorage.setDir, FileStorage.dirOf, lookupDir_updateDir_ne _ _ _ _ h]

theorem dirOf_setDir (fs : FileStorage) (sid sid' : String) (d : SessionDir) :
    (fs.setDir sid d).dirOf sid' = if sid' = sid then d else fs.dirOf sid' := by
  by_cases h : sid' = sid
  · subst h
    simp [dirOf_setDir_self]
  · simp [h, dirOf_setDir_ne _ _ _ _ h]

/-- `saveTask` leaves every session record unchanged. -/
theorem getSession_saveTask (fs : FileStorage) (t : TaskCommit)
    (sid : String) : (fs.saveTask t).getSession sid = fs.getSession sid := by
  unfold FileStorage.saveTask FileStorage.getSession
  rw [dirOf_setDir]
  by_cases h : sid = t.sessionId
  · subst h
    simp
  · simp [h]

/-- `saveThought` leaves every session record unchanged. -/
theorem getSession_saveThought (fs : FileStorage) (t : ThoughtRecord)
    (sid : String) : (fs.saveThought t).getSession sid = fs.getSession sid := by
  unfold FileStorage.saveThought FileStorage.getSession
  rw [dirOf_setDir]
  by_cases h : sid = t.sessionId
  · subst h
    simp
  · simp [h]

/-- `saveDocumentation` leaves every session record unchanged. -/
theorem getSession_saveDocumentation (fs : FileStorage)
    (doc : DocumentationEntry) (sid : String) :
    (fs.saveDocumentation doc).getSession sid = fs.getSession sid := by
  unfold FileStorage.saveDocumentation FileStorage.getSession
  rw [dirOf_setDir]
  by_cases h : sid = doc.sessionId
  · subst h
    simp
  · simp [h]

/-- `updateTask` leaves every session record unchanged. -/
theorem getSession_updateTask (fs : FileStorage) (t : TaskCommit)
    (sid : String) : (fs.updateTask t).getSession sid = fs.getSession sid := by
  unfold FileStorage.updateTask
  cases hidx : ((readJson (fs.dirOf t.sessionId).tasksFile).getD []).findIdx?
      (fun x => x.taskId = t.taskId) with
  | none => simp [hidx]
  | some i =>
      simp only [hidx]
      unfold FileStorage.getSession
      rw [dirOf_setDir]
      by_cases h : sid = t.sessionId
      · subst h
        simp
      · simp [h]

/-- `updateSession s` makes `s` the record under `s.id`. -/
theorem getSession_updateSession_self (fs : FileStorage) (s : Session) :
    (fs.updateSession s).getSession s.id = some s := by
  unfold FileStorage.updateSession FileStorage.getSession
  rw [dirOf_setDir_self]
  rfl

/-- `updateSession s` leaves other session records unchanged. -/
theorem getSession_updateSession_ne (fs : FileStorage) (s : Session)
    (sid : String) (h : sid ≠ s.id) :
    (fs.updateSession s).getSession sid = fs.getSession sid := by
  unfold FileStorage.updateSession FileStorage.getSession
  rw [dirOf_setDir_ne _ _ _ _ h]

/-- `updateSession` leaves every thought log unchanged. -/
theorem getThoughts_updateSession (fs : FileStorage) (s : Session)
    (sid : String) :
    (fs.updateSession s).getThoughts sid = fs.getThoughts sid := by
  unfold FileStorage.updateSession FileStorage.getThoughts
  rw [dirOf_setDir]
  by_cases h : sid = s.id
  · subst h
    simp
  · simp [h]

/-- `updateSession` leaves every task list unchanged. -/
theorem getTasks_updateSession (fs : FileStorage) (s : Session)
    (sid : String) :
    (fs.updateSession s).getTasks sid = fs.getTasks sid := by
  unfold FileStorage.updateSession FileStorage.getTasks
  rw [dirOf_setDir]
  by_cases h : sid = s.id
  · subst h
    simp
  · simp [h]

/-- `saveThought` appends to the thought log it targets. -/
theorem getThoughts_saveThought_self (fs : FileStorage) (t : ThoughtRecord) :
    (fs.saveThought t).getThoughts t.sessionId = fs.getThoughts t.sessionId ++ [t] := by
  unfold FileStorage.saveThought FileStorage.getThoughts
  rw [dirOf_setDir_self]
  rfl

/-- `saveTask` appends to the task list it targets. -/
theorem getTasks_saveTask_self (fs : FileStorage) (t : TaskCommit) :
    (fs.saveTask t).getTasks t.sessionId = fs.getTasks t.sessionId ++ [t] := by
  unfold FileStorage.saveTask FileStorage.getTasks
  rw [dirOf_setDir_self]
  rfl

/-- `saveTask` leaves every thought log unchanged. -/
theorem getThoughts_saveTask (fs : FileStorage) (t : TaskCommit)
    (sid : String) : (fs.saveTask t).getThoughts sid = fs.getThoughts sid := by
  unfold FileStorage.saveTask FileStorage.getThoughts
  rw [dirOf_setDir]
  by_cases h : sid = t.sessionId
  · subst h
    simp
  · simp [h]

/-- `saveThought` leaves every task list unchanged. -/
theorem getTasks_saveThought (fs : FileStorage) (t : ThoughtRecord)
    (sid : String) : (fs.saveThought t).getTasks sid = fs.getTasks sid := by
  unfold FileStorage.saveThought FileStorage.getTasks
  rw [dirOf_setDir]
  by_cases h : sid = t.sessionId
  · subst h
    simp
  · simp [h]

/-- `saveDocumentation doc` makes `doc` the artifact under its session id. -/
theorem getDocumentation_saveDocumentation_self (fs : FileStorage)
    (doc : DocumentationEntry) :
    (fs.saveDocumentation doc).getDocumentation doc.sessionId = some doc := by
  unfold FileStorage.saveDocumentation FileStorage.getDocumentation
  rw [dirOf_setDir_self]
  rfl

/-- `updateSession` leaves every documentation artifact unchanged. -/
theorem getDocumentation_updateSession (fs : FileStorage) (s : Session)
    (sid : String) :
    (fs.updateSession s).getDocumentation sid = fs.getDocumentation sid := by
  unfold FileStorage.updateSession FileStorage.getDocumentation
  rw [dirOf_setDir]
  by_cases h : sid = s.id
  · subst h
    simp
  · simp [h]

/-- `saveDocumentation` leaves every thought log unchanged. -/
theorem getThoughts_saveDocumentation (fs : FileStorage)
    (doc : DocumentationEntry) (sid : String) :
    (fs.saveDocumentation doc).getThoughts sid = fs.getThoughts sid := by
  unfold FileStorage.saveDocumentation FileStorage.getThoughts
  rw [dirOf_setDir]
  by_cases h : sid = doc.sessionId
  · subst h
    simp
  · simp [h]

/-- `saveDocumentation` leaves every task list unchanged. -/
theorem getTasks_saveDocumentation (fs : FileStorage)
    (doc : DocumentationEntry) (sid : String) :
    (fs.saveDocumentation doc).getTasks sid = fs.getTasks sid := by
  unfold FileStorage.saveDocumentation FileStorage.getTasks
  rw [dirOf_setDir]
  by_cases h : sid = doc.sessionId
  · subst h
    simp
  · simp [h]

/-- `createSession s` makes `s` the record under `s.id`. -/
theorem getSession_createSession_self (fs : FileStorage) (s : Session) :
    (fs.createSession s).getSession s.id = some s := by
  unfold FileStorage.createSession FileStorage.getSession
  rw [dirOf_setDir_self]
  rfl

/-! ## Concrete fixtures used by the witnesses -/

/-- A small active session. -/
def wSession : Session :=
  { id := "s1", createdAt := 0, updatedAt := 0, status := .active,
    thoughtCount := 0, taskCount := 0, metadata := none }

/-- The directory of `wSession` as `createSession` lays it out. -/
def wDir : SessionDir :=
  { sessionFile := .good wSession, thoughtsFile := .good [],
    tasksFile := .good [], documentationFile := .absent }

/-- A one-session store. -/
def wStore : FileStorage :=
  { dirs := [("s1", wDir)], readdirFails := false }

/-- The same store with a failing `sessions/` enumeration. -/
def wStoreBroken : FileStorage :=
  { dirs := [("s1", wDir)], readdirFails := true }

/-- A thought addressed to the existing session. -/
def wThought : ThoughtRecord :=
  { sessionId := "s1", thought := "first step", thoughtNumber := 1,
    totalThoughts := 2, branchId := none, isRevision := none,
    revisesThought := none, timestamp := 4 }

/-- A thought addressed to a session that has no record. -/
def wOrphanThought : ThoughtRecord :=
  { wThought with sessionId := "ghost" }

/-- Commit parameters addressed to the existing session. -/
def wParams : TaskManager.CommitParams :=
  { sessionId := "s1", taskId := none, taskTitle := none,
    description := none, completedAtThought := 3 }

/-- Commit parameters addressed to a session that has no record. -/
def wOrphanParams : TaskManager.CommitParams :=
  { wParams with sessionId := "ghost" }

/-- A store holding one directory whose four files are all present but
unparseable; the directory `missing` does not exist at all. -/
def wCorruptStore : FileStorage :=
  { dirs := [("bad",
      { sessionFile := .corrupt, thoughtsFile := .corrupt,
        tasksFile := .corrupt, documentationFile := .corrupt })],
    readdirFails := false }

/-! ## Claims -/

/-- C2: every `commitTask` call increments the owning session's `taskCount`
by exactly one (and bumps `updatedAt`), while `createTask` never changes any
session record. -/
theorem commitTask_bumps_createTask_does_not
    (fs : FileStorage) (p : TaskManager.CommitParams) (genId : String)
    (now : Nat) (s : Session)
    (h : fs.getSession p.sessionId = some s) (hid : s.id = p.sessionId) :
    (TaskManager.commitTask fs p genId now).2.getSession p.sessionId =
      some { s with taskCount := s.taskCount + 1, updatedAt := now } ∧
    ∀ (fs2 : FileStorage) (sid title : String) (desc : Option String)
      (g : String) (n : Nat) (sid' : String),
      (TaskManager.createTask fs2 sid title desc g n).2.getSession sid' =
        fs2.getSession sid' := by
  constructor
  · simp only [TaskManager.commitTask]
    rw [getSession_saveTask, h]
    simp only
    rw [← hid]
    exact getSession_updateSession_self _ _
  · intro fs2 sid title desc g n sid'
    simp only [TaskManager.createTask]
    exact getSession_saveTask _ _ _

/-- C2 witness: on the concrete one-session store, committing a task takes
`taskCount` from 0 to 1, and creating a task leaves the record untouched. -/
theorem commitTask_bumps_createTask_does_not_witness :
    (TaskManager.commitTask wStore wParams "g1" 7).2.getSession "s1" =
      some { wSession with taskCount := wSession.taskCount + 1, updatedAt := 7 } ∧
    (TaskManager.createTask wStore "s1" "T" none "g2" 7).2.getSession "s1" =
      wStore.getSession "s1" :=
  ⟨(commitTask_bumps_createTask_does_not wStore wParams "g1" 7 wSession rfl
      rfl).1,
   (commitTask_bumps_createTask_does_not wStore wParams "g1" 7 wSession rfl
      rfl).2 wStore "s1" "T" none "g2" 7 "s1"⟩

/-- C3: `ensureSession` on a truthy id naming an existing session returns
that id with the store untouched; on an id naming no session (or no id) it
returns the freshly generated id — distinct from the input whenever the
generated id is fresh — and a new active session with both counters zero
exists under it; in every branch the returned id is usable. -/
theorem ensureSession_spec (fs : FileStorage) (genId : String) (now : Nat) :
    (∀ sid s, sid ≠ "" → fs.getSession sid = some s →
      ContextLayer.ensureSession fs (some sid) genId now = (sid, fs)) ∧
    (∀ sid, fs.getSession sid = none →
      (ContextLayer.ensureSession fs (some sid) genId now).1 =
        "session_" ++ genId ∧
      ("session_" ++ genId ≠ sid →
        (ContextLayer.ensureSession fs (some sid) genId now).1 ≠ sid) ∧
      (ContextLayer.ensureSession fs (some sid) genId now).2.getSession
          ("session_" ++ genId) =
        some { id := "session_" ++ genId, createdAt := now, updatedAt := now,
               status := .active, thoughtCount := 0, taskCount := 0,
               metadata := none }) ∧
    ((ContextLayer.ensureSession fs none genId now).1 =
        "session_" ++ genId ∧
      (ContextLayer.ensureSession fs none genId now).2.getSession
          ("session_" ++ genId) =
        some { id := "session_" ++ genId, createdAt := now, updatedAt := now,
               status := .active, thoughtCount := 0, taskCount := 0,
               metadata := none }) := by
  refine ⟨?_, ?_, ?_⟩
  · intro sid s hne h
    simp [ContextLayer.ensureSession, hne, h]
  · intro sid h
    have hred : ContextLayer.ensureSession fs (some sid) genId now =
        ContextStore.createSession fs genId now none := by
      simp [ContextLayer.ensureSession, h]
    refine ⟨by rw [hred]; rfl, fun hfresh => by rw [hred]; exact hfresh, ?_⟩
    rw [hred]
    simp only [ContextStore.createSession]
    exact getSession_createSession_self _ _
  · refine ⟨rfl, ?_⟩
    simp only [ContextLayer.ensureSession, ContextStore.createSession]
    exact getSession_createSession_self _ _

/-- C3 witness: on the concrete store, `ensureSession` returns `s1`
untouched for the existing id, and creates a fresh zero-counter session for
an unknown id. -/
theorem ensureSession_spec_witness :
    ContextLayer.ensureSession wStore (some "s1") "g9" 11 = ("s1", wStore) ∧
    (ContextLayer.ensureSession wStore (some "nope") "g9" 11).1 =
      "session_" ++ "g9" ∧
    (ContextLayer.ensureSession wStore (some "nope") "g9" 11).2.getSession
        ("session_" ++ "g9") =
      some { id := "session_" ++ "g9", createdAt := 11, updatedAt := 11,
             status := .active, thoughtCount := 0, taskCount := 0,
             metadata := none } :=
  ⟨(ensureSession_spec wStore "g9" 11).1 "s1" wSession (by decide) rfl,
   ((ensureSession_spec wStore "g9" 11).2.1 "nope" rfl).1,
   ((ensureSession_spec wStore "g9" 11).2.1 "nope" rfl).2.2⟩

/-- C4: `persistThought` (ContextStore.saveThought) appends the record to the
session's durable thought log, keeping all previous entries in order, and —
the session record existing — increments `thoughtCount` and sets `updatedAt`
to the call's timestamp. -/
theorem persistThought_appends_and_bumps
    (fs : FileStorage) (t : ThoughtRecord) (now : Nat) (s : Session)
    (h : fs.getSession t.sessionId = some s) (hid : s.id = t.sessionId) :
    (ContextStore.saveThought fs t now).getThoughts t.sessionId =
      fs.getThoughts t.sessionId ++ [t] ∧
    (ContextStore.saveThought fs t now).getSession t.sessionId =
      some { s with thoughtCount := s.thoughtCount + 1, updatedAt := now } := by
  have h1 : (fs.saveThought t).getSession t.sessionId = some s := by
    rw [getSession_saveThought]; exact h
  constructor
  · simp only [ContextStore.saveThought]
    rw [h1]
    simp only
    rw [getThoughts_updateSession]
    exact getThoughts_saveThought_self _ _
  · simp only [ContextStore.saveThought]
    rw [h1]
    simp only
    rw [← hid]
    exact getSession_updateSession_self _ _

/-- C4 witness: persisting a concrete thought appends it to the empty log
and takes `thoughtCount` from 0 to 1. -/
theorem persistThought_appends_and_bumps_witness :
    (ContextStore.saveThought wStore wThought 9).getThoughts "s1" =
      wStore.getThoughts "s1" ++ [wThought] ∧
    (ContextStore.saveThought wStore wThought 9).getSession "s1" =
      some { wSession with
             thoughtCount := wSession.thoughtCount + 1,
             updatedAt := 9 } :=
  persistThought_appends_and_bumps wStore wThought 9 wSession rfl rfl

/-- C5: `getContext` returns the aggregate of the stored session record, all
stored thoughts and all stored tasks when the session exists, and fails with
the `Session not found` error when it does not. -/
theorem getContext_aggregate_or_notFound (fs : FileStorage) (sid : String) :
    (∀ s, fs.getSession sid = some s →
      ContextStore.getContext fs sid =
        .ok { session := s, thoughts := fs.getThoughts sid,
              tasks := fs.getTasks sid }) ∧
    (fs.getSession sid = none →
      ContextStore.getContext fs sid =
        .error ("Session not found: " ++ sid)) := by
  constructor
  · intro s h
    simp [ContextStore.getContext, h]
  · intro h
    simp [ContextStore.getContext, h]

/-- C5 witness: on the concrete store, `getContext` aggregates session `s1`
and errors on the unknown id `nope`. -/
theorem getContext_aggregate_or_notFound_witness :
    ContextStore.getContext wStore "s1" =
      .ok { session := wSession, thoughts := wStore.getThoughts "s1",
            tasks := wStore.getTasks "s1" } ∧
    ContextStore.getContext wStore "nope" =
      .error ("Session not found: " ++ "nope") :=
  ⟨(getContext_aggregate_or_notFound wStore "s1").1 wSession rfl,
   (getContext_aggregate_or_notFound wStore "nope").2 rfl⟩

/-- C8: whenever enumerating the sessions collection fails, `listSessions`
returns the empty list (at the storage layer and through the store's
projection) instead of raising an error. -/
theorem listSessions_degrades_on_failure (fs : FileStorage)
    (h : fs.readdirFails = true) :
    fs.listSessions = [] ∧ ContextStore.listSessions fs = [] := by
  constructor
  · simp [FileStorage.listSessions, h]
  · simp [ContextStore.listSessions, FileStorage.listSessions, h]

/-- C8 witness: the concrete store with a broken enumeration lists no
sessions. -/
theorem listSessions_degrades_on_failure_witness :
    wStoreBroken.listSessions = [] ∧
    ContextStore.listSessions wStoreBroken = [] :=
  listSessions_degrades_on_failure wStoreBroken rfl

/-- C9: `commitTask` and `persistThought` against a session id with no
readable session record still succeed: the completed task (respectively the
thought) is appended to that id's collection, the task is returned to the
caller, and no session record — hence no counter and no `updatedAt` —
changes anywhere. -/
theorem orphan_commit_and_persist
    (fs : FileStorage) (p : TaskManager.CommitParams) (genId : String)
    (now : Nat) (t : ThoughtRecord)
    (hc : fs.getSession p.sessionId = none)
    (ht : fs.getSession t.sessionId = none) :
    ((TaskManager.commitTask fs p genId now).1 =
      { sessionId := p.sessionId, taskId := jsOr p.taskId ("task_" ++ genId),
        taskTitle := jsOr p.taskTitle "Untitled Task",
        description := p.description,
        completedAtThought := p.completedAtThought, status := .completed,
        createdAt := now, completedAt := some now } ∧
     (TaskManager.commitTask fs p genId now).2.getTasks p.sessionId =
       fs.getTasks p.sessionId ++ [(TaskManager.commitTask fs p genId now).1] ∧
     ∀ sid, (TaskManager.commitTask fs p genId now).2.getSession sid =
       fs.getSession sid) ∧
    ((ContextStore.saveThought fs t now).getThoughts t.sessionId =
       fs.getThoughts t.sessionId ++ [t] ∧
     ∀ sid, (ContextStore.saveThought fs t now).getSession sid =
       fs.getSession sid) := by
  have hc1 : (fs.saveTask
      { sessionId := p.sessionId, taskId := jsOr p.taskId ("task_" ++ genId),
        taskTitle := jsOr p.taskTitle "Untitled Task",
        description := p.description,
        completedAtThought := p.completedAtThought, status := .completed,
        createdAt := now, completedAt := some now }).getSession p.sessionId
      = none := by
    rw [getSession_saveTask]; exact hc
  have ht1 : (fs.saveThought t).getSession t.sessionId = none := by
    rw [getSession_saveThought]; exact ht
  refine ⟨⟨?_, ?_, ?_⟩, ?_, ?_⟩
  · simp only [TaskManager.commitTask]
  · simp only [TaskManager.commitTask]
    rw [hc1]
    simp only
    exact getTasks_saveTask_self _ _
  · intro sid
    simp only [TaskManager.commitTask]
    rw [hc1]
    simp only
    exact getSession_saveTask _ _ _
  · simp only [ContextStore.saveThought]
    rw [ht1]
    simp only
    exact getThoughts_saveThought_self _ _
  · intro sid
    simp only [ContextStore.saveThought]
    rw [ht1]
    simp only
    exact getSession_saveThought _ _ _

/-- C9 witness: committing a task and persisting a thought under the unknown
id `ghost` append to that id's collections and leave session `s1`'s record
untouched. -/
theorem orphan_commit_and_persist_witness :
    (TaskManager.commitTask wStore wOrphanParams "g4" 8).2.getTasks "ghost" =
      wStore.getTasks "ghost" ++
        [(TaskManager.commitTask wStore wOrphanParams "g4" 8).1] ∧
    (TaskManager.commitTask wStore wOrphanParams "g4" 8).2.getSession "s1" =
      wStore.getSession "s1" ∧
    (ContextStore.saveThought wStore wOrphanThought 8).getThoughts "ghost" =
      wStore.getThoughts "ghost" ++ [wOrphanThought] ∧
    (ContextStore.saveThought wStore wOrphanThought 8).getSession "s1" =
      wStore.getSession "s1" :=
  ⟨(orphan_commit_and_persist wStore wOrphanParams "g4" 8 wOrphanThought rfl
      rfl).1.2.1,
   (orphan_commit_and_persist wStore wOrphanParams "g4" 8 wOrphanThought rfl
      rfl).1.2.2 "s1",
   (orphan_commit_and_persist wStore wOrphanParams "g4" 8 wOrphanThought rfl
      rfl).2.1,
   (orphan_commit_and_persist wStore wOrphanParams "g4" 8 wOrphanThought rfl
      rfl).2.2 "s1"⟩

/-- C10: every file-backed read degrades silently: a missing or unparseable
backing file makes `getSession` and `getDocumentation` return `null` and
`getThoughts` and `getTasks` return the empty list; being total functions,
none of them propagates an error. -/
theorem reads_degrade_silently (fs : FileStorage) (sid : String) :
    (((fs.dirOf sid).sessionFile = .absent ∨
      (fs.dirOf sid).sessionFile = .corrupt) →
      fs.getSession sid = none) ∧
    (((fs.dirOf sid).documentationFile = .absent ∨
      (fs.dirOf sid).documentationFile = .corrupt) →
      fs.getDocumentation sid = none) ∧
    (((fs.dirOf sid).thoughtsFile = .absent ∨
      (fs.dirOf sid).thoughtsFile = .corrupt) →
      fs.getThoughts sid = []) ∧
    (((fs.dirOf sid).tasksFile = .absent ∨
      (fs.dirOf sid).tasksFile = .corrupt) →
      fs.getTasks sid = []) := by
  refine ⟨?_, ?_, ?_, ?_⟩
  · intro h
    unfold FileStorage.getSession
    rcases h with h | h <;> rw [h] <;> rfl
  · intro h
    unfold FileStorage.getDocumentation
    rcases h with h | h <;> rw [h] <;> rfl
  · intro h
    unfold FileStorage.getThoughts
    rcases h with h | h <;> rw [h] <;> rfl
  · intro h
    unfold FileStorage.getTasks
    rcases h with h | h <;> rw [h] <;> rfl

/-- C10 witness: a store with one all-corrupt directory and one missing
directory yields `null`/empty on every read. -/
theorem reads_degrade_silently_witness :
    wCorruptStore.getSession "bad" = none ∧
    wCorruptStore.getDocumentation "bad" = none ∧
    wCorruptStore.getThoughts "bad" = [] ∧
    wCorruptStore.getTasks "bad" = [] ∧
    wCorruptStore.getSession "missing" = none ∧
    wCorruptStore.getThoughts "missing" = [] :=
  ⟨(reads_degrade_silently wCorruptStore "bad").1 (Or.inr rfl),
   (reads_degrade_silently wCorruptStore "bad").2.1 (Or.inr rfl),
   (reads_degrade_silently wCorruptStore "bad").2.2.1 (Or.inr rfl),
   (reads_degrade_silently wCorruptStore "bad").2.2.2 (Or.inr rfl),
   (reads_degrade_silently wCorruptStore "missing").1 (Or.inl rfl),
   (reads_degrade_silently wCorruptStore "missing").2.2.1 (Or.inl rfl)⟩

/-- The generated summary starts with a fixed non-empty phrase, so it is
never the empty string. -/
theorem generateSummary_ne_empty (thoughts : List ThoughtRecord)
    (tasks : List TaskCommit) :
    DocumentationGenerator.generateSummary thoughts tasks ≠ "" := by
  unfold DocumentationGenerator.generateSummary
  intro h
  have h2 := congrArg String.length h
  repeat rw [String.length_append] at h2
  have h3 : ("Session completed with " : String).length = 23 := by decide
  have h0 : ("" : String).length = 0 := by decide
  omega

/-- C6: finalizing documentation for an existing session stores an artifact
recording the session's persisted thought count and the distinct branch tags
among those thoughts, with a non-empty summary that names the thought count
and the completed-task count, and marks the session completed. -/
theorem generate_records_and_completes
    (fs : FileStorage) (sid : String) (now : Nat) (s : Session)
    (h : fs.getSession sid = some s) (hid : s.id = sid) :
    ∀ doc fs2, DocumentationGenerator.generate fs sid now = .ok (doc, fs2) →
      doc.thoughtCount = (fs.getThoughts sid).length ∧
      doc.branches =
        DocumentationGenerator.distinctBranches (fs.getThoughts sid) ∧
      doc.summary =
        "Session completed with " ++ toString (fs.getThoughts sid).length ++
          " thoughts, " ++
          toString ((fs.getThoughts sid).filter
            (fun t => truthyBool t.isRevision)).length ++
          " revisions, and " ++
          toString ((fs.getTasks sid).filter
            (fun t => t.status = .completed)).length ++
          " tasks completed." ∧
      doc.summary ≠ "" ∧
      fs2.getDocumentation sid = some doc ∧
      fs2.getSession sid =
        some { s with status := .completed, updatedAt := now } := by
  intro doc fs2 hgen
  unfold DocumentationGenerator.generate at hgen
  rw [h] at hgen
  injection hgen with h1
  injection h1 with hdoc hfs
  subst hdoc
  subst hfs
  refine ⟨rfl, rfl, ?_, ?_, ?_, ?_⟩
  · simp only [DocumentationGenerator.generateSummary]
  · exact generateSummary_ne_empty _ _
  · rw [getDocumentation_updateSession]
    exact getDocumentation_saveDocumentation_self _ _
  · rw [← hid]
    exact getSession_updateSession_self _ _

/-- A thought carrying a branch tag. -/
def wBranchThought : ThoughtRecord :=
  { sessionId := "s1", thought := "alt approach", thoughtNumber := 2,
    totalThoughts := 3, branchId := some "alt-a", isRevision := none,
    revisesThought := none, timestamp := 5 }

/-- A completed task. -/
def wDoneTask : TaskCommit :=
  { sessionId := "s1", taskId := "task_1", taskTitle := "T1",
    description := none, completedAtThought := 2, status := .completed,
    createdAt := 1, completedAt := some 2 }

/-- A store whose session holds two thoughts (one branched) and one
completed task. -/
def wStoreFull : FileStorage :=
  { dirs := [("s1",
      { sessionFile := .good wSession,
        thoughtsFile := .good [wThought, wBranchThought],
        tasksFile := .good [wDoneTask], documentationFile := .absent })],
    readdirFails := false }

/-- Placeholder artifact for the impossible error branch below. -/
def wDocFallback : DocumentationEntry :=
  { sessionId := "", generatedAt := 0, summary := "", thoughtCount := 0,
    taskCount := 0, branches := [], content := "" }

/-- The artifact and store produced by finalizing `wStoreFull`. -/
def wDocPair : DocumentationEntry × FileStorage :=
  match DocumentationGenerator.generate wStoreFull "s1" 12 with
  | .ok p => p
  | .error _ => (wDocFallback, wStoreFull)

/-- C6 witness: finalizing the concrete two-thought one-task session yields
an artifact with the right thought count, the branch tag list
`[alt-a]`, a non-empty summary, and a completed session record. -/
theorem generate_records_and_completes_witness :
    wDocPair.1.thoughtCount = (wStoreFull.getThoughts "s1").length ∧
    wDocPair.1.branches =
      DocumentationGenerator.distinctBranches (wStoreFull.getThoughts "s1") ∧
    wDocPair.1.summary ≠ "" ∧
    wDocPair.2.getSession "s1" =
      some { wSession with status := .completed, updatedAt := 12 } :=
  ⟨(generate_records_and_completes wStoreFull "s1" 12 wSession rfl rfl
      wDocPair.1 wDocPair.2 rfl).1,
   (generate_records_and_completes wStoreFull "s1" 12 wSession rfl rfl
      wDocPair.1 wDocPair.2 rfl).2.1,
   (generate_records_and_completes wStoreFull "s1" 12 wSession rfl rfl
      wDocPair.1 wDocPair.2 rfl).2.2.2.1,
   (generate_records_and_completes wStoreFull "s1" 12 wSession rfl rfl
      wDocPair.1 wDocPair.2 rfl).2.2.2.2.2⟩

/-! ## Session invariant (claim C7) -/

/-- Store well-formedness: every readable session record carries the id of
the directory it lives in.  The store only ever writes records this way
(`createSession` keys the directory by `session.id`, and every update writes
back a record read from its own directory). -/
def WellFormed (fs : FileStorage) : Prop :=
  ∀ sid s, fs.getSession sid = some s → s.id = sid

/-- The session invariant between two storage states: per session, `status`
may only move from `active` to `completed`, and neither counter decreases. -/
def SessionEvolution (fs fs2 : FileStorage) : Prop :=
  ∀ sid s s2, fs.getSession sid = some s → fs2.getSession sid = some s2 →
    (s.status = .completed → s2.status = .completed) ∧
    s.thoughtCount ≤ s2.thoughtCount ∧ s.taskCount ≤ s2.taskCount

/-- An operation leaving every session record unchanged satisfies the
invariant. -/
theorem sessionEvolution_of_preserve (fs fs2 : FileStorage)
    (hmid : ∀ sid, fs2.getSession sid = fs.getSession sid) :
    SessionEvolution fs fs2 := by
  intro sid a b ha hb
  rw [hmid, ha] at hb
  injection hb with hb
  subst hb
  exact ⟨fun x => x, le_refl _, le_refl _⟩

/-- Read-modify-write of one session record through `updateSession`
satisfies the invariant whenever the modification itself is forward. -/
theorem sessionEvolution_of_update (fs fsMid : FileStorage) (sid0 : String)
    (s s' : Session)
    (hmid : ∀ sid, fsMid.getSession sid = fs.getSession sid)
    (h0 : fs.getSession sid0 = some s)
    (hid0 : s.id = sid0)
    (hid : s'.id = s.id)
    (hstat : s.status = .completed → s'.status = .completed)
    (hth : s.thoughtCount ≤ s'.thoughtCount)
    (htk : s.taskCount ≤ s'.taskCount) :
    SessionEvolution fs (fsMid.updateSession s') := by
  intro sid a b ha hb
  by_cases hs : sid = s'.id
  · subst hs
    rw [getSession_updateSession_self] at hb
    injection hb with hb
    subst hb
    rw [hid, hid0] at ha
    rw [h0] at ha
    injection ha with ha
    subst ha
    exact ⟨hstat, hth, htk⟩
  · rw [getSession_updateSession_ne _ _ _ hs, hmid, ha] at hb
    injection hb with hb
    subst hb
    exact ⟨fun x => x, le_refl _, le_refl _⟩

/-- `ContextStore.saveThought` satisfies the invariant. -/
theorem sessionEvolution_saveThought (fs : FileStorage) (hwf : WellFormed fs)
    (t : ThoughtRecord) (now : Nat) :
    SessionEvolution fs (ContextStore.saveThought fs t now) := by
  have hmid : ∀ sid, (fs.saveThought t).getSession sid = fs.getSession sid :=
    fun sid => getSession_saveThought fs t sid
  unfold ContextStore.saveThought
  cases hm : (fs.saveThought t).getSession t.sessionId with
  | none =>
      simp only [hm]
      exact sessionEvolution_of_preserve _ _ hmid
  | some s =>
      simp only [hm]
      have h0 : fs.getSession t.sessionId = some s := by
        rw [← hmid]; exact hm
      exact sessionEvolution_of_update fs (fs.saveThought t) t.sessionId s _
        hmid h0 (hwf _ _ h0) rfl (fun x => x) (Nat.le_succ _) (le_refl _)

/-- `TaskManager.commitTask` satisfies the invariant. -/
theorem sessionEvolution_commitTask (fs : FileStorage) (hwf : WellFormed fs)
    (p : TaskManager.CommitParams) (genId : String) (now : Nat) :
    SessionEvolution fs (TaskManager.commitTask fs p genId now).2 := by
  simp only [TaskManager.commitTask]
  cases hm : (fs.saveTask
      { sessionId := p.sessionId, taskId := jsOr p.taskId ("task_" ++ genId),
        taskTitle := jsOr p.taskTitle "Untitled Task",
        description := p.description,
        completedAtThought := p.completedAtThought, status := .completed,
        createdAt := now, completedAt := some now }).getSession p.sessionId with
  | none =>
      simp only [hm]
      exact sessionEvolution_of_preserve _ _
        (fun sid => getSession_saveTask fs _ sid)
  | some s =>
      simp only [hm]
      have h0 : fs.getSession p.sessionId = some s := by
        rw [← getSession_saveTask fs _ p.sessionId]; exact hm
      exact sessionEvolution_of_update fs _ p.sessionId s _
        (fun sid => getSession_saveTask fs _ sid) h0 (hwf _ _ h0) rfl
        (fun x => x) (le_refl _) (Nat.le_succ _)

/-- `TaskManager.createTask` satisfies the invariant. -/
theorem sessionEvolution_createTask (fs : FileStorage)
    (sid title : String) (desc : Option String) (genId : String) (now : Nat) :
    SessionEvolution fs (TaskManager.createTask fs sid title desc genId now).2 := by
  simp only [TaskManager.createTask]
  exact sessionEvolution_of_preserve _ _
    (fun sid' => getSession_saveTask fs _ sid')

/-- `TaskManager.updateTaskStatus` satisfies the invariant. -/
theorem sessionEvolution_updateTaskStatus (fs : FileStorage)
    (sid tid : String) (status : TaskStatus) (cat : Option Nat) (now : Nat) :
    SessionEvolution fs
      (TaskManager.updateTaskStatus fs sid tid status cat now) := by
  unfold TaskManager.updateTaskStatus
  cases hm : fs.getTask sid tid with
  | none =>
      simp only [hm]
      exact sessionEvolution_of_preserve _ _ (fun _ => rfl)
  | some task =>
      simp only [hm]
      exact sessionEvolution_of_preserve _ _
        (fun sid' => getSession_updateTask fs _ sid')

/-- `ContextStore.completeSession` satisfies the invariant. -/
theorem sessionEvolution_completeSession (fs : FileStorage)
    (hwf : WellFormed fs) (sid : String) (now : Nat) :
    SessionEvolution fs (ContextStore.completeSession fs sid now) := by
  unfold ContextStore.completeSession
  cases hm : fs.getSession sid with
  | none =>
      simp only [hm]
      exact sessionEvolution_of_preserve _ _ (fun _ => rfl)
  | some s =>
      simp only [hm]
      exact sessionEvolution_of_update fs fs sid s _ (fun _ => rfl) hm
        (hwf _ _ hm) rfl (fun _ => rfl) (le_refl _) (le_refl _)

/-- `DocumentationGenerator.generate` satisfies the invariant. -/
theorem sessionEvolution_generate (fs : FileStorage) (hwf : WellFormed fs)
    (sid : String) (now : Nat) (doc : DocumentationEntry)
    (fs2 : FileStorage)
    (hgen : DocumentationGenerator.generate fs sid now = .ok (doc, fs2)) :
    SessionEvolution fs fs2 := by
  unfold DocumentationGenerator.generate at hgen
  cases hm : fs.getSession sid with
  | none =>
      rw [hm] at hgen
      simp at hgen
  | some s =>
      rw [hm] at hgen
      injection hgen with h1
      injection h1 with hdoc hfs
      subst hfs
      exact sessionEvolution_of_update fs _ sid s _
        (fun sid' => getSession_saveDocumentation fs _ sid') hm
        (hwf _ _ hm) rfl (fun _ => rfl) (le_refl _) (le_refl _)

/-- C7: every store operation — `saveThought`, `commitTask`, `createTask`,
`updateTaskStatus`, `completeSession` and documentation `generate` —
preserves the session invariant: `status` only ever moves from `active` to
`completed` and never back, and `thoughtCount` and `taskCount` never
decrease. -/
theorem store_ops_preserve_session_invariant (fs : FileStorage)
    (hwf : WellFormed fs) :
    (∀ t now, SessionEvolution fs (ContextStore.saveThought fs t now)) ∧
    (∀ p genId now,
      SessionEvolution fs (TaskManager.commitTask fs p genId now).2) ∧
    (∀ sid title desc genId now,
      SessionEvolution fs
        (TaskManager.createTask fs sid title desc genId now).2) ∧
    (∀ sid tid status cat now,
      SessionEvolution fs
        (TaskManager.updateTaskStatus fs sid tid status cat now)) ∧
    (∀ sid now,
      SessionEvolution fs (ContextStore.completeSession fs sid now)) ∧
    (∀ sid now doc fs2,
      DocumentationGenerator.generate fs sid now = .ok (doc, fs2) →
        SessionEvolution fs fs2) :=
  ⟨fun t now => sessionEvolution_saveThought fs hwf t now,
   fun p genId now => sessionEvolution_commitTask fs hwf p genId now,
   fun sid title desc genId now =>
     sessionEvolution_createTask fs sid title desc genId now,
   fun sid tid status cat now =>
     sessionEvolution_updateTaskStatus fs sid tid status cat now,
   fun sid now => sessionEvolution_completeSession fs hwf sid now,
   fun sid now doc fs2 hgen =>
     sessionEvolution_generate fs hwf sid now doc fs2 hgen⟩

/-- The concrete one-session store is well formed. -/
theorem wStore_wf : WellFormed wStore := by
  intro sid s h
  by_cases hs : ("s1" : String) = sid
  · have hsv : s = wSession := by
      rw [← hs] at h
      simpa [wStore, wDir, FileStorage.getSession, FileStorage.dirOf,
        lookupDir, readJson] using h.symm
    rw [hsv, ← hs]
    rfl
  · exfalso
    simp [wStore, wDir, FileStorage.getSession, FileStorage.dirOf,
      lookupDir, readJson, SessionDir.empty, hs] at h

/-- C7 witness: on the concrete store, completing session `s1` moves it
forward: the completed status is reachable only forward and neither counter
drops. -/
theorem store_ops_preserve_session_invariant_witness :
    (wSession.status = SessionStatus.completed →
      ({ wSession with
         status := SessionStatus.completed,
         updatedAt := 4 } : Session).status = SessionStatus.completed) ∧
    wSession.thoughtCount ≤
      ({ wSession with
         status := SessionStatus.completed,
         updatedAt := 4 } : Session).thoughtCount ∧
    wSession.taskCount ≤
      ({ wSession with
         status := SessionStatus.completed,
         updatedAt := 4 } : Session).taskCount :=
  (store_ops_preserve_session_invariant wStore wStore_wf).2.2.2.2.1 "s1" 4
    "s1" wSession
    { wSession with status := SessionStatus.completed, updatedAt := 4 }
    rfl rfl

/-! ## Claim C1: widening of totalThoughts -/

/-- The widened estimate equals `thoughtNumber` whenever `thoughtNumber`
exceeds the current estimate, and it never drops below the engine's previous
estimate. -/
theorem widenedTotal_spec (st : EngineState) (input : ThoughtData) :
    (max st.currentTotal input.totalThoughts < input.thoughtNumber →
      widenedTotal st input = input.thoughtNumber) ∧
    st.currentTotal ≤ widenedTotal st input := by
  constructor
  · intro hlt
    simp [widenedTotal, hlt]
  · by_cases hc : max st.currentTotal input.totalThoughts < input.thoughtNumber
    · simp only [widenedTotal, if_pos hc]
      exact le_of_lt (lt_of_le_of_lt (le_max_left _ _) hc)
    · simp only [widenedTotal, if_neg hc]
      exact le_max_left _ _

/-- C1: for every accepted submission whose `thoughtNumber` exceeds the
engine's current `totalThoughts` estimate (the estimate having absorbed the
submission's own `totalThoughts` field), the returned `totalThoughts` equals
`thoughtNumber`; and on every accepted submission the returned and retained
estimate never drops below the previously widened value, so a later accepted
submission with a smaller `thoughtNumber` cannot shrink it. -/
theorem processThought_widens_monotonically
    (st : EngineState) (input : ThoughtData) (out : ThoughtOutput)
    (st2 : EngineState)
    (h : processThought st input = .ok (out, st2)) :
    (max st.currentTotal input.totalThoughts < input.thoughtNumber →
      out.totalThoughts = input.thoughtNumber) ∧
    st.currentTotal ≤ out.totalThoughts ∧
    st2.currentTotal = out.totalThoughts := by
  unfold processThought at h
  cases hv : validateThought input with
  | some e =>
      rw [hv] at h
      simp at h
  | none =>
      rw [hv] at h
      injection h with h1
      injection h1 with hout hst
      subst hout
      subst hst
      refine ⟨?_, ?_, rfl⟩
      · intro hlt
        exact (widenedTotal_spec st input).1 hlt
      · exact (widenedTotal_spec st input).2

/-- Scenario B's submission: thought number 5 against an estimate of 3. -/
def wInput : ThoughtData :=
  { thought := "jump ahead", thoughtNumber := 5, totalThoughts := 3,
    isRevision := none, revisesThought := none, branchFromThought := none,
    branchId := none, needsMoreThoughts := none, nextThoughtNeeded := true }

/-- The response to `wInput` on a fresh engine. -/
def wOut : ThoughtOutput :=
  { thoughtNumber := 5, totalThoughts := 5, nextThoughtNeeded := true,
    branches := [], thoughtHistoryLength := 1 }

/-- The engine state after `wInput` on a fresh engine. -/
def wEngine2 : EngineState :=
  { thoughtHistory := [{ wInput with totalThoughts := 5 }], branches := [],
    currentTotal := 5 }

/-- C1 witness: submitting thought number 5 with estimate 3 to a fresh
engine returns `totalThoughts = 5`. -/
theorem processThought_widens_monotonically_witness :
    max EngineState.initial.currentTotal wInput.totalThoughts <
      wInput.thoughtNumber ∧
    wOut.totalThoughts = wInput.thoughtNumber :=
  ⟨by decide,
   (processThought_widens_monotonically EngineState.initial wInput wOut
      wEngine2 rfl).1 (by decide)⟩

end SeqThink
